import Mathlib

/-!  Verification of the SIR epidemic simulator in `SIR_model_covid19.py`.

The Python class `Doenca` stores scalar parameters, two rates derived in
`__init__`, and six trajectory lists; `run` advances the state with an
explicit Euler step of size `dt = 0.01` and finally converts the four
compartment lists to absolute counts.  Real arithmetic is modelled with
exact rationals.  -/

/-- The fixed integration step of `Doenca.run` (`dt = 0.01` in the source). -/
def dt : ℚ := 1 / 100

/-- Mirror of class `Doenca`: the scalar parameters kept on `self`, the two
derived rates (`tDeath` after the overwrite on line 84, `tCuradas` from
line 85), and the six recorded lists. -/
structure Doenca where
  simulationTime : ℚ
  populacao : ℚ
  beta : ℚ
  gama : ℚ
  tDeath : ℚ
  tCuradas : ℚ
  I : List ℚ
  C : List ℚ
  D : List ℚ
  S : List ℚ
  time : List ℚ
  leitos : List ℚ

/-- `Doenca.__init__` (lines 64-93 of the source): stores the parameters,
overwrites `tDeath` with `tDeath * gama`, sets `tCuradas = gama * (1 - tDeath)`
and initializes the six lists as singletons.  The only way construction can
fail in the source is the division by `populacao` when `populacao = 0`
(a `ZeroDivisionError` in Python), modelled here as `none`; no parameter is
otherwise checked. -/
def Doenca.init (populacao beta gama tDeath infectado curado mortos simulationTime leitos : ℚ) : Option Doenca :=
  if populacao = 0 then none
  else some
    { simulationTime := simulationTime
      populacao := populacao
      beta := beta
      gama := gama
      tDeath := tDeath * gama
      tCuradas := gama * (1 - tDeath)
      I := [infectado / populacao]
      C := [curado / populacao]
      D := [mortos / populacao]
      S := [(populacao - infectado) / populacao]
      time := [0]
      leitos := [leitos] }

/-- The last recorded value of each list, i.e. what the loop body of `run`
reads through `self.I[-1]`, `self.C[-1]`, `self.D[-1]`, `self.S[-1]`,
`self.time[-1]`. -/
structure SIRState where
  I : ℚ
  C : ℚ
  D : ℚ
  S : ℚ
  time : ℚ

/-- One iteration of the loop in `Doenca.run` (lines 104-108): the five new
values are all computed from the previous step's values before any of them is
appended. -/
def Doenca.step (d : Doenca) (p : SIRState) : SIRState :=
  { I := p.I + (d.beta * p.I * p.S - d.gama * p.I) * dt
    C := p.C + (d.tCuradas * p.I) * dt
    D := p.D + (d.tDeath * p.I) * dt
    S := p.S - (d.beta * p.I * p.S) * dt
    time := p.time + dt }

/-- The initial last-values: the sole elements of the singleton lists set up
by `Doenca.init`. -/
def Doenca.state0 (d : Doenca) : SIRState :=
  { I := d.I.headI, C := d.C.headI, D := d.D.headI, S := d.S.headI
    time := d.time.headI }

/-- The loop state after `k` iterations of `run`'s loop. -/
def Doenca.traj (d : Doenca) : ℕ → SIRState
  | 0 => d.state0
  | k + 1 => d.step (d.traj k)

/-- The number of loop iterations performed by `run`:
`range(int(self.simulationTime / dt))` on line 103.  For a positive horizon
`int` truncation agrees with the floor; a non-positive horizon gives an empty
`range`, matched by `Int.toNat`. -/
def Doenca.N (d : Doenca) : ℕ := (⌊d.simulationTime / dt⌋).toNat

/-- `Doenca.run` (lines 95-121): iterates the Euler step `N` times, appending
each new value to its list and the constant literal `744` to `leitos`
(line 115), then multiplies every entry of `I`, `C`, `D`, `S` by `populacao`
(lines 118-121).  Starting from the singleton lists produced by `Doenca.init`,
the resulting lists are exactly the maps below over step indices `0..N`. -/
def Doenca.run (d : Doenca) : Doenca :=
  { d with
    I := (List.range (d.N + 1)).map fun k => (d.traj k).I * d.populacao
    C := (List.range (d.N + 1)).map fun k => (d.traj k).C * d.populacao
    D := (List.range (d.N + 1)).map fun k => (d.traj k).D * d.populacao
    S := (List.range (d.N + 1)).map fun k => (d.traj k).S * d.populacao
    time := (List.range (d.N + 1)).map fun k => (d.traj k).time
    leitos := d.leitos ++ List.replicate d.N 744 }

/-- The valid-parameter domain of the specification (§3/§4.1): positive
population, non-negative rates, death fraction in `[0,1]`, non-negative
initial counts with `infectado ≤ populacao`, positive horizon, non-negative
bed count. -/
def ValidParams (populacao beta gama tDeath infectado curado mortos simulationTime leitos : ℚ) : Prop :=
  0 < populacao ∧ 0 ≤ beta ∧ 0 ≤ gama ∧ 0 ≤ tDeath ∧ tDeath ≤ 1 ∧
    0 ≤ infectado ∧ infectado ≤ populacao ∧ 0 ≤ curado ∧ 0 ≤ mortos ∧
    0 < simulationTime ∧ 0 ≤ leitos

/-- Constructing with a nonzero population always succeeds and yields exactly
the record written by `__init__`. -/
theorem Doenca.init_eq (populacao beta gama tDeath infectado curado mortos simulationTime leitos : ℚ)
    (hp : populacao ≠ 0) :
    Doenca.init populacao beta gama tDeath infectado curado mortos simulationTime leitos = some
      { simulationTime := simulationTime
        populacao := populacao
        beta := beta
        gama := gama
        tDeath := tDeath * gama
        tCuradas := gama * (1 - tDeath)
        I := [infectado / populacao]
        C := [curado / populacao]
        D := [mortos / populacao]
        S := [(populacao - infectado) / populacao]
        time := [0]
        leitos := [leitos] } := by
  simp [Doenca.init, hp]

/-- A successful construction never has a zero population. -/
theorem Doenca.init_ne_zero (populacao beta gama tDeath infectado curado mortos simulationTime leitos : ℚ)
    (d : Doenca)
    (h : Doenca.init populacao beta gama tDeath infectado curado mortos simulationTime leitos = some d) :
    populacao ≠ 0 := by
  intro hp
  simp [Doenca.init, hp] at h

/-- Claim C1 counterexample: `beta = -1` violates the spec's validity
conditions, yet the constructor succeeds and produces a model instance
instead of raising. -/
theorem c1_counterexample :
    ¬ ValidParams 10 (-1) (1/4) (1/25) 1 0 0 21 0 ∧
      ∃ d, Doenca.init 10 (-1) (1/4) (1/25) 1 0 0 21 0 = some d := by
  constructor
  · intro h
    exact absurd h.2.1 (by norm_num)
  · exact ⟨_, Doenca.init_eq 10 (-1) (1/4) (1/25) 1 0 0 21 0 (by norm_num)⟩

/-- Claim C1 (amended): the constructor performs no parameter validation.
Every input with nonzero population — the invalid combinations included —
produces a model instance, and a zero population fails with a division error
(Python `ZeroDivisionError`), not an `InvalidParameter` condition. -/
theorem c1_no_validation (populacao beta gama tDeath infectado curado mortos simulationTime leitos : ℚ) :
    (populacao ≠ 0 →
      ∃ d, Doenca.init populacao beta gama tDeath infectado curado mortos simulationTime leitos = some d) ∧
    (populacao = 0 →
      Doenca.init populacao beta gama tDeath infectado curado mortos simulationTime leitos = none) := by
  constructor
  · intro hp
    exact ⟨_, Doenca.init_eq populacao beta gama tDeath infectado curado mortos simulationTime leitos hp⟩
  · intro hp
    simp [Doenca.init, hp]

/-- Witness for C1: construction succeeds at the concretely invalid input
`populacao = 10, beta = -1, gama = -1, tDeath = 2, infectado = 11,
simulationTime = -5`. -/
theorem c1_no_validation_witness :
    ∃ d, Doenca.init 10 (-1) (-1) 2 11 0 0 (-5) 0 = some d :=
  (c1_no_validation 10 (-1) (-1) 2 11 0 0 (-5) 0).1 (by norm_num)

/-- Claim C6: for every successful construction the derived coefficients are
`mortalityRate = tDeath * gama` and `cureRate = gama * (1 - tDeath)`, and
their sum equals `gama` exactly. -/
theorem c6_rates_sum_to_gama (populacao beta gama tDeath infectado curado mortos simulationTime leitos : ℚ)
    (d : Doenca)
    (h : Doenca.init populacao beta gama tDeath infectado curado mortos simulationTime leitos = some d) :
    d.tDeath = tDeath * gama ∧ d.tCuradas = gama * (1 - tDeath) ∧
      d.tDeath + d.tCuradas = gama := by
  have hp := Doenca.init_ne_zero populacao beta gama tDeath infectado curado mortos simulationTime leitos d h
  rw [Doenca.init_eq populacao beta gama tDeath infectado curado mortos simulationTime leitos hp] at h
  obtain rfl := (Option.some.inj h).symm
  refine ⟨rfl, rfl, ?_⟩
  ring

/-- Witness for C6 at the driver's scenario
(`gama = 1/4`, `tDeath = 1/25`). -/
theorem c6_rates_sum_to_gama_witness :
    ∃ d, Doenca.init 900000 (3/10) (1/4) (1/25) 5100 0 0 360 5623 = some d ∧
      d.tDeath + d.tCuradas = 1/4 :=
  ⟨_, Doenca.init_eq 900000 (3/10) (1/4) (1/25) 5100 0 0 360 5623 (by norm_num),
    (c6_rates_sum_to_gama 900000 (3/10) (1/4) (1/25) 5100 0 0 360 5623 _
      (Doenca.init_eq 900000 (3/10) (1/4) (1/25) 5100 0 0 360 5623 (by norm_num))).2.2⟩

/-- The fields a successful construction gives the model, phrased as
equations usable on an abstract instance. -/
theorem Doenca.init_fields (populacao beta gama tDeath infectado curado mortos simulationTime leitos : ℚ)
    (d : Doenca)
    (h : Doenca.init populacao beta gama tDeath infectado curado mortos simulationTime leitos = some d) :
    d.populacao = populacao ∧ d.beta = beta ∧ d.gama = gama ∧
      d.tDeath = tDeath * gama ∧ d.tCuradas = gama * (1 - tDeath) ∧
      d.simulationTime = simulationTime ∧
      d.state0 = ⟨infectado / populacao, curado / populacao, mortos / populacao,
        (populacao - infectado) / populacao, 0⟩ := by
  have hp := Doenca.init_ne_zero populacao beta gama tDeath infectado curado mortos simulationTime leitos d h
  rw [Doenca.init_eq populacao beta gama tDeath infectado curado mortos simulationTime leitos hp] at h
  obtain rfl := (Option.some.inj h).symm
  exact ⟨rfl, rfl, rfl, rfl, rfl, rfl, rfl⟩

/-- The state after zero iterations is the initial state. -/
theorem Doenca.traj_zero (d : Doenca) : d.traj 0 = d.state0 := rfl

/-- Unfolding of the `I` update of one loop iteration. -/
theorem Doenca.traj_succ_I (d : Doenca) (k : ℕ) :
    (d.traj (k+1)).I
      = (d.traj k).I + (d.beta * (d.traj k).I * (d.traj k).S - d.gama * (d.traj k).I) * dt := rfl

/-- Unfolding of the `C` update of one loop iteration. -/
theorem Doenca.traj_succ_C (d : Doenca) (k : ℕ) :
    (d.traj (k+1)).C = (d.traj k).C + (d.tCuradas * (d.traj k).I) * dt := rfl

/-- Unfolding of the `D` update of one loop iteration. -/
theorem Doenca.traj_succ_D (d : Doenca) (k : ℕ) :
    (d.traj (k+1)).D = (d.traj k).D + (d.tDeath * (d.traj k).I) * dt := rfl

/-- Unfolding of the `S` update of one loop iteration. -/
theorem Doenca.traj_succ_S (d : Doenca) (k : ℕ) :
    (d.traj (k+1)).S = (d.traj k).S - (d.beta * (d.traj k).I * (d.traj k).S) * dt := rfl

/-- Unfolding of the `time` update of one loop iteration. -/
theorem Doenca.traj_succ_time (d : Doenca) (k : ℕ) :
    (d.traj (k+1)).time = (d.traj k).time + dt := rfl

/-- Per-step conservation of the compartment sum, valid whenever the two
derived rates add up to `gama` (as `__init__` guarantees): the four per-step
increments cancel algebraically. -/
theorem Doenca.sum_step (d : Doenca) (hd : d.tCuradas + d.tDeath = d.gama) (k : ℕ) :
    (d.traj (k+1)).S + (d.traj (k+1)).I + (d.traj (k+1)).C + (d.traj (k+1)).D
      = (d.traj k).S + (d.traj k).I + (d.traj k).C + (d.traj k).D := by
  rw [Doenca.traj_succ_S, Doenca.traj_succ_I, Doenca.traj_succ_C, Doenca.traj_succ_D]
  linear_combination (d.traj k).I * dt * hd

/-- The compartment sum at every step equals the initial sum. -/
theorem Doenca.sum_const (d : Doenca) (hd : d.tCuradas + d.tDeath = d.gama) (k : ℕ) :
    (d.traj k).S + (d.traj k).I + (d.traj k).C + (d.traj k).D
      = (d.traj 0).S + (d.traj 0).I + (d.traj 0).C + (d.traj 0).D := by
  induction k with
  | zero => rfl
  | succ k ih => rw [Doenca.sum_step d hd k, ih]

/-- Claim C10: under exact arithmetic a single integration step conserves the
compartment sum exactly, for every construction (any real `beta`, `gama`,
`tDeath`); hence the sum at every step equals the initial sum, so any
deviation of the fractional sum from `1` originates in the initial state. -/
theorem c10_step_conserves_sum (populacao beta gama tDeath infectado curado mortos simulationTime leitos : ℚ)
    (d : Doenca)
    (h : Doenca.init populacao beta gama tDeath infectado curado mortos simulationTime leitos = some d)
    (k : ℕ) :
    ((d.traj (k+1)).S + (d.traj (k+1)).I + (d.traj (k+1)).C + (d.traj (k+1)).D
        = (d.traj k).S + (d.traj k).I + (d.traj k).C + (d.traj k).D) ∧
      ((d.traj k).S + (d.traj k).I + (d.traj k).C + (d.traj k).D
        = (d.traj 0).S + (d.traj 0).I + (d.traj 0).C + (d.traj 0).D) := by
  obtain ⟨-, -, hg, hdd, hcc, -, -⟩ :=
    Doenca.init_fields populacao beta gama tDeath infectado curado mortos simulationTime leitos d h
  have hsum : d.tCuradas + d.tDeath = d.gama := by rw [hcc, hdd, hg]; ring
  exact ⟨Doenca.sum_step d hsum k, Doenca.sum_const d hsum k⟩

/-- Witness for C10 at a concrete construction, step `k = 2`. -/
theorem c10_step_conserves_sum_witness :
    ∃ d, Doenca.init 10 (1/2) (1/4) (1/25) 1 0 0 21 0 = some d ∧
      (d.traj 3).S + (d.traj 3).I + (d.traj 3).C + (d.traj 3).D
        = (d.traj 2).S + (d.traj 2).I + (d.traj 2).C + (d.traj 2).D :=
  ⟨_, Doenca.init_eq 10 (1/2) (1/4) (1/25) 1 0 0 21 0 (by norm_num),
    (c10_step_conserves_sum 10 (1/2) (1/4) (1/25) 1 0 0 21 0 _
      (Doenca.init_eq 10 (1/2) (1/4) (1/25) 1 0 0 21 0 (by norm_num)) 2).1⟩

/-- Claim C2 counterexample: the valid parameter set
`populacao = 10, infectado = 1, curado = 1` (nonzero initial cured count)
already violates `S[0] + I[0] + C[0] + D[0] = 1`: the initial susceptible
fraction `(populacao - infectado) / populacao` does not subtract `curado` or
`mortos`, so the sum is `11/10`. -/
theorem c2_counterexample :
    ValidParams 10 0 0 0 1 1 0 (1/100) 0 ∧
      ∃ d, Doenca.init 10 0 0 0 1 1 0 (1/100) 0 = some d ∧
        (d.traj 0).S + (d.traj 0).I + (d.traj 0).C + (d.traj 0).D ≠ 1 := by
  refine ⟨by norm_num [ValidParams], ⟨_, Doenca.init_eq 10 0 0 0 1 1 0 (1/100) 0 (by norm_num), ?_⟩⟩
  rw [Doenca.traj_zero]
  show (10 - 1) / 10 + 1 / 10 + 1 / 10 + 0 / 10 ≠ (1 : ℚ)
  norm_num

/-- Claim C2 (amended): for every valid parameter set with
`initialCured = initialDead = 0`, the fractional compartment sum equals `1`
at every recorded step, the initial state included.  (With nonzero initial
cured or dead counts the sum is `1 + (curado + mortos) / populacao` instead,
because `S[0]` does not subtract them.) -/
theorem c2_sum_one (populacao beta gama tDeath infectado simulationTime leitos : ℚ)
    (hv : ValidParams populacao beta gama tDeath infectado 0 0 simulationTime leitos)
    (d : Doenca)
    (h : Doenca.init populacao beta gama tDeath infectado 0 0 simulationTime leitos = some d)
    (k : ℕ) :
    (d.traj k).S + (d.traj k).I + (d.traj k).C + (d.traj k).D = 1 := by
  obtain ⟨-, -, hg, hdd, hcc, -, hs0⟩ :=
    Doenca.init_fields populacao beta gama tDeath infectado 0 0 simulationTime leitos d h
  have hp : populacao ≠ 0 := ne_of_gt hv.1
  have hsum : d.tCuradas + d.tDeath = d.gama := by rw [hcc, hdd, hg]; ring
  rw [Doenca.sum_const d hsum k, Doenca.traj_zero, hs0]
  show (populacao - infectado) / populacao + infectado / populacao
      + 0 / populacao + 0 / populacao = 1
  field_simp

/-- Witness for C2 at a concrete valid construction with zero initial cured
and dead counts, step `k = 1`. -/
theorem c2_sum_one_witness :
    ∃ d, Doenca.init 10 (1/2) (1/4) (1/25) 1 0 0 (1/100) 0 = some d ∧
      (d.traj 1).S + (d.traj 1).I + (d.traj 1).C + (d.traj 1).D = 1 :=
  ⟨_, Doenca.init_eq 10 (1/2) (1/4) (1/25) 1 0 0 (1/100) 0 (by norm_num),
    c2_sum_one 10 (1/2) (1/4) (1/25) 1 (1/100) 0 (by norm_num [ValidParams]) _
      (Doenca.init_eq 10 (1/2) (1/4) (1/25) 1 0 0 (1/100) 0 (by norm_num)) 1⟩

/-- Claim C3: every integration step computes all five next values from the
previous step's snapshot — in terms of the construction parameters,
`cureRate = gama * (1 - tDeath)` and `mortalityRate = tDeath * gama` —
with no right-hand side reading a value already updated within the step. -/
theorem c3_euler_step (populacao beta gama tDeath infectado curado mortos simulationTime leitos : ℚ)
    (d : Doenca)
    (h : Doenca.init populacao beta gama tDeath infectado curado mortos simulationTime leitos = some d)
    (k : ℕ) :
    (d.traj (k+1)).I
        = (d.traj k).I + (beta * (d.traj k).I * (d.traj k).S - gama * (d.traj k).I) * dt ∧
      (d.traj (k+1)).C = (d.traj k).C + (gama * (1 - tDeath)) * (d.traj k).I * dt ∧
      (d.traj (k+1)).D = (d.traj k).D + (tDeath * gama) * (d.traj k).I * dt ∧
      (d.traj (k+1)).S = (d.traj k).S - beta * (d.traj k).I * (d.traj k).S * dt ∧
      (d.traj (k+1)).time = (d.traj k).time + dt := by
  obtain ⟨-, hb, hg, hdd, hcc, -, -⟩ :=
    Doenca.init_fields populacao beta gama tDeath infectado curado mortos simulationTime leitos d h
  refine ⟨?_, ?_, ?_, ?_, Doenca.traj_succ_time d k⟩
  · rw [Doenca.traj_succ_I, hb, hg]
  · rw [Doenca.traj_succ_C, hcc]
  · rw [Doenca.traj_succ_D, hdd]
  · rw [Doenca.traj_succ_S, hb]

/-- Witness for C3 at a concrete construction, step `k = 0`. -/
theorem c3_euler_step_witness :
    ∃ d, Doenca.init 10 (1/2) (1/4) (1/25) 1 0 0 21 0 = some d ∧
      (d.traj 1).S = (d.traj 0).S - (1/2) * (d.traj 0).I * (d.traj 0).S * dt :=
  ⟨_, Doenca.init_eq 10 (1/2) (1/4) (1/25) 1 0 0 21 0 (by norm_num),
    (c3_euler_step 10 (1/2) (1/4) (1/25) 1 0 0 21 0 _
      (Doenca.init_eq 10 (1/2) (1/4) (1/25) 1 0 0 21 0 (by norm_num)) 0).2.2.2.1⟩

/-- If the cure rate is zero, `C` never moves. -/
theorem Doenca.traj_C_const (d : Doenca) (hc : d.tCuradas = 0) (k : ℕ) :
    (d.traj k).C = (d.traj 0).C := by
  induction k with
  | zero => rfl
  | succ k ih => rw [Doenca.traj_succ_C, hc, ih]; ring

/-- If the mortality rate is zero, `D` never moves. -/
theorem Doenca.traj_D_const (d : Doenca) (hd : d.tDeath = 0) (k : ℕ) :
    (d.traj k).D = (d.traj 0).D := by
  induction k with
  | zero => rfl
  | succ k ih => rw [Doenca.traj_succ_D, hd, ih]; ring

/-- Claim C8: with `gama = 0` both derived rates vanish, so `C` and `D`
remain at their initial values for the entire run. -/
theorem c8_frozen_C_D (populacao beta tDeath infectado curado mortos simulationTime leitos : ℚ)
    (d : Doenca)
    (h : Doenca.init populacao beta 0 tDeath infectado curado mortos simulationTime leitos = some d)
    (k : ℕ) :
    (d.traj k).C = (d.traj 0).C ∧ (d.traj k).D = (d.traj 0).D := by
  obtain ⟨-, -, -, hdd, hcc, -, -⟩ :=
    Doenca.init_fields populacao beta 0 tDeath infectado curado mortos simulationTime leitos d h
  have hc0 : d.tCuradas = 0 := by rw [hcc]; ring
  have hd0 : d.tDeath = 0 := by rw [hdd]; ring
  exact ⟨Doenca.traj_C_const d hc0 k, Doenca.traj_D_const d hd0 k⟩

/-- Witness for C8 at a concrete valid construction with `gama = 0`,
step `k = 2`. -/
theorem c8_frozen_C_D_witness :
    ∃ d, Doenca.init 10 (1/2) 0 (1/25) 1 2 3 21 0 = some d ∧
      (d.traj 2).C = (d.traj 0).C :=
  ⟨_, Doenca.init_eq 10 (1/2) 0 (1/25) 1 2 3 21 0 (by norm_num),
    (c8_frozen_C_D 10 (1/2) (1/25) 1 2 3 21 0 _
      (Doenca.init_eq 10 (1/2) 0 (1/25) 1 2 3 21 0 (by norm_num)) 2).1⟩

/-- The step size is positive. -/
theorem dt_pos : (0:ℚ) < dt := by norm_num [dt]

/-- The step size is non-negative. -/
theorem dt_nonneg : (0:ℚ) ≤ dt := le_of_lt dt_pos

/-- With a zero transmission coefficient, `S` never moves. -/
theorem Doenca.traj_S_const_of_beta_zero (d : Doenca) (hb : d.beta = 0) (k : ℕ) :
    (d.traj k).S = (d.traj 0).S := by
  induction k with
  | zero => rfl
  | succ k ih => rw [Doenca.traj_succ_S, hb, ih]; ring

/-- With a zero transmission coefficient and a stable recovery rate
(`gama * dt ≤ 1`), a non-negative infected fraction stays non-negative. -/
theorem Doenca.traj_I_nonneg_of_beta_zero (d : Doenca) (hb : d.beta = 0)
    (hg0 : 0 ≤ d.gama) (hg1 : d.gama * dt ≤ 1) (hI0 : 0 ≤ (d.traj 0).I) (k : ℕ) :
    0 ≤ (d.traj k).I := by
  induction k with
  | zero => exact hI0
  | succ k ih =>
    rw [Doenca.traj_succ_I, hb]
    have h1 : (d.traj k).I + (0 * (d.traj k).I * (d.traj k).S - d.gama * (d.traj k).I) * dt
        = (d.traj k).I * (1 - d.gama * dt) := by ring
    rw [h1]
    exact mul_nonneg ih (by linarith)

/-- Claim C7 counterexample: the valid parameter set `beta = 0, gama = 200`
(the spec puts no upper bound on `gama`) makes the Euler step overshoot:
`I` flips sign each step (`1/2, -1/2, 1/2, …`), so `I` increases from step 1
to step 2. -/
theorem c7_counterexample :
    ValidParams 2 0 200 0 1 0 0 (3/100) 0 ∧
      ∃ d, Doenca.init 2 0 200 0 1 0 0 (3/100) 0 = some d ∧
        (d.traj 1).I < (d.traj 2).I := by
  obtain ⟨d, hd⟩ : ∃ d, Doenca.init 2 0 200 0 1 0 0 (3/100) 0 = some d :=
    ⟨_, Doenca.init_eq 2 0 200 0 1 0 0 (3/100) 0 (by norm_num)⟩
  obtain ⟨-, hb, hg, -, -, -, hs0⟩ := Doenca.init_fields 2 0 200 0 1 0 0 (3/100) 0 d hd
  have h0I : (d.traj 0).I = 1/2 := by rw [Doenca.traj_zero, hs0]
  have h0S : (d.traj 0).S = 1/2 := by rw [Doenca.traj_zero, hs0]; norm_num
  have h1I : (d.traj 1).I = -(1/2) := by
    show (d.traj (0+1)).I = -(1/2)
    rw [Doenca.traj_succ_I, hb, hg, h0I, h0S]
    norm_num [dt]
  have h1S : (d.traj 1).S = 1/2 := by
    show (d.traj (0+1)).S = 1/2
    rw [Doenca.traj_succ_S, hb, h0S]
    norm_num
  have h2I : (d.traj 2).I = 1/2 := by
    show (d.traj (1+1)).I = 1/2
    rw [Doenca.traj_succ_I, hb, hg, h1I, h1S]
    norm_num [dt]
  exact ⟨by norm_num [ValidParams], d, hd, by rw [h1I, h2I]; norm_num⟩

/-- Claim C7 (amended): with `beta = 0` and a stable recovery coefficient
`gama * dt ≤ 1` (i.e. `gama ≤ 100`), `I` is non-increasing at every step of
the run and `S` is constant.  (`S` is constant for any `beta = 0`; the bound
on `gama` is forced by the counterexample at `gama = 200`.) -/
theorem c7_beta_zero (populacao gama tDeath infectado curado mortos simulationTime leitos : ℚ)
    (hv : ValidParams populacao 0 gama tDeath infectado curado mortos simulationTime leitos)
    (hg1 : gama * dt ≤ 1)
    (d : Doenca)
    (h : Doenca.init populacao 0 gama tDeath infectado curado mortos simulationTime leitos = some d)
    (k : ℕ) :
    (d.traj (k+1)).I ≤ (d.traj k).I ∧ (d.traj k).S = (d.traj 0).S := by
  unfold ValidParams at hv
  obtain ⟨hpop, -, hg0, -, -, hi0, -, -, -, -, -⟩ := hv
  obtain ⟨-, hb, hg, -, -, -, hs0⟩ :=
    Doenca.init_fields populacao 0 gama tDeath infectado curado mortos simulationTime leitos d h
  have hI0 : 0 ≤ (d.traj 0).I := by
    rw [Doenca.traj_zero, hs0]
    exact div_nonneg hi0 hpop.le
  have hgn : 0 ≤ d.gama := by rw [hg]; exact hg0
  have hgd : d.gama * dt ≤ 1 := by rw [hg]; exact hg1
  have hI := Doenca.traj_I_nonneg_of_beta_zero d hb hgn hgd hI0
  refine ⟨?_, Doenca.traj_S_const_of_beta_zero d hb k⟩
  rw [Doenca.traj_succ_I, hb]
  have h1 : (d.traj k).I + (0 * (d.traj k).I * (d.traj k).S - d.gama * (d.traj k).I) * dt
      = (d.traj k).I - d.gama * dt * (d.traj k).I := by ring
  rw [h1]
  have h2 : 0 ≤ d.gama * dt * (d.traj k).I :=
    mul_nonneg (mul_nonneg hgn dt_nonneg) (hI k)
  linarith

/-- Witness for C7 at a concrete valid construction with `beta = 0`,
`gama = 1/4`, step `k = 1`. -/
theorem c7_beta_zero_witness :
    ∃ d, Doenca.init 10 0 (1/4) (1/25) 1 0 0 21 0 = some d ∧
      (d.traj 2).I ≤ (d.traj 1).I ∧ (d.traj 1).S = (d.traj 0).S :=
  ⟨_, Doenca.init_eq 10 0 (1/4) (1/25) 1 0 0 21 0 (by norm_num),
    (c7_beta_zero 10 (1/4) (1/25) 1 0 0 21 0 (by norm_num [ValidParams]) (by norm_num [dt]) _
      (Doenca.init_eq 10 0 (1/4) (1/25) 1 0 0 21 0 (by norm_num)) 1).1,
    (c7_beta_zero 10 (1/4) (1/25) 1 0 0 21 0 (by norm_num [ValidParams]) (by norm_num [dt]) _
      (Doenca.init_eq 10 0 (1/4) (1/25) 1 0 0 21 0 (by norm_num)) 1).2⟩

/-- Joint invariant of the Euler loop in the stable regime
(`beta * dt ≤ 1`, `gama * dt ≤ 1`): non-negative `I`, non-negative `S`, and
`S + I ≤ 1` are preserved by every step. -/
theorem Doenca.traj_inv (d : Doenca)
    (hb0 : 0 ≤ d.beta) (hb1 : d.beta * dt ≤ 1)
    (hg0 : 0 ≤ d.gama) (hg1 : d.gama * dt ≤ 1)
    (hI0 : 0 ≤ (d.traj 0).I) (hS0 : 0 ≤ (d.traj 0).S)
    (hSI0 : (d.traj 0).S + (d.traj 0).I ≤ 1) (k : ℕ) :
    0 ≤ (d.traj k).I ∧ 0 ≤ (d.traj k).S ∧ (d.traj k).S + (d.traj k).I ≤ 1 := by
  induction k with
  | zero => exact ⟨hI0, hS0, hSI0⟩
  | succ k ih =>
    obtain ⟨hI, hS, hSI⟩ := ih
    have hIle1 : (d.traj k).I ≤ 1 := by linarith
    refine ⟨?_, ?_, ?_⟩
    · rw [Doenca.traj_succ_I]
      have h1 : (d.traj k).I + (d.beta * (d.traj k).I * (d.traj k).S - d.gama * (d.traj k).I) * dt
          = (d.traj k).I * (1 - d.gama * dt) + d.beta * (d.traj k).I * (d.traj k).S * dt := by
        ring
      rw [h1]
      have t1 : 0 ≤ (d.traj k).I * (1 - d.gama * dt) := mul_nonneg hI (by linarith)
      have t2 : 0 ≤ d.beta * (d.traj k).I * (d.traj k).S * dt :=
        mul_nonneg (mul_nonneg (mul_nonneg hb0 hI) hS) dt_nonneg
      linarith
    · rw [Doenca.traj_succ_S]
      have h1 : (d.traj k).S - (d.beta * (d.traj k).I * (d.traj k).S) * dt
          = (d.traj k).S * (1 - d.beta * (d.traj k).I * dt) := by ring
      rw [h1]
      refine mul_nonneg hS ?_
      have t3 : d.beta * (d.traj k).I ≤ d.beta := mul_le_of_le_one_right hb0 hIle1
      have t4 : d.beta * (d.traj k).I * dt ≤ d.beta * dt :=
        mul_le_mul_of_nonneg_right t3 dt_nonneg
      linarith
    · rw [Doenca.traj_succ_S, Doenca.traj_succ_I]
      have t5 : 0 ≤ d.gama * (d.traj k).I * dt :=
        mul_nonneg (mul_nonneg hg0 hI) dt_nonneg
      have h1 : (d.traj k).S - (d.beta * (d.traj k).I * (d.traj k).S) * dt
            + ((d.traj k).I + (d.beta * (d.traj k).I * (d.traj k).S - d.gama * (d.traj k).I) * dt)
          = (d.traj k).S + (d.traj k).I - d.gama * (d.traj k).I * dt := by ring
      rw [h1]
      linarith

/-- In the stable regime the susceptible fraction never increases. -/
theorem Doenca.traj_S_mono (d : Doenca)
    (hb0 : 0 ≤ d.beta) (hb1 : d.beta * dt ≤ 1)
    (hg0 : 0 ≤ d.gama) (hg1 : d.gama * dt ≤ 1)
    (hI0 : 0 ≤ (d.traj 0).I) (hS0 : 0 ≤ (d.traj 0).S)
    (hSI0 : (d.traj 0).S + (d.traj 0).I ≤ 1) (k : ℕ) :
    (d.traj (k+1)).S ≤ (d.traj k).S := by
  obtain ⟨hI, hS, -⟩ := Doenca.traj_inv d hb0 hb1 hg0 hg1 hI0 hS0 hSI0 k
  rw [Doenca.traj_succ_S]
  have t1 : 0 ≤ (d.beta * (d.traj k).I * (d.traj k).S) * dt :=
    mul_nonneg (mul_nonneg (mul_nonneg hb0 hI) hS) dt_nonneg
  linarith

/-- Claim C9 counterexample: the valid parameter set
`beta = 1, gama = 300` (non-negative `beta`, and the spec puts no upper
bound on `gama`) drives `I` negative at step 1, after which the susceptible
fraction increases: `S[1] < S[2]`. -/
theorem c9_counterexample :
    ValidParams 2 1 300 0 1 0 0 (3/100) 0 ∧
      ∃ d, Doenca.init 2 1 300 0 1 0 0 (3/100) 0 = some d ∧
        (d.traj 1).S < (d.traj 2).S := by
  obtain ⟨d, hd⟩ : ∃ d, Doenca.init 2 1 300 0 1 0 0 (3/100) 0 = some d :=
    ⟨_, Doenca.init_eq 2 1 300 0 1 0 0 (3/100) 0 (by norm_num)⟩
  obtain ⟨-, hb, hg, -, -, -, hs0⟩ := Doenca.init_fields 2 1 300 0 1 0 0 (3/100) 0 d hd
  have h0I : (d.traj 0).I = 1/2 := by rw [Doenca.traj_zero, hs0]
  have h0S : (d.traj 0).S = 1/2 := by rw [Doenca.traj_zero, hs0]; norm_num
  have h1I : (d.traj 1).I = -(399/400) := by
    show (d.traj (0+1)).I = -(399/400)
    rw [Doenca.traj_succ_I, hb, hg, h0I, h0S]
    norm_num [dt]
  have h1S : (d.traj 1).S = 199/400 := by
    show (d.traj (0+1)).S = 199/400
    rw [Doenca.traj_succ_S, hb, h0I, h0S]
    norm_num [dt]
  have h2S : (d.traj 2).S = 199/400 + 399/400 * (199/400) * (1/100) := by
    show (d.traj (1+1)).S = 199/400 + 399/400 * (199/400) * (1/100)
    rw [Doenca.traj_succ_S, hb, h1I, h1S]
    norm_num [dt]
  exact ⟨by norm_num [ValidParams], d, hd, by rw [h1S, h2S]; norm_num⟩

/-- Claim C9 (amended): for every valid parameter set in the stable regime
`beta * dt ≤ 1` and `gama * dt ≤ 1` (i.e. `beta ≤ 100` and `gama ≤ 100`),
the susceptible sequence is non-increasing at every step of the run; the
bounds are forced by the counterexample at `gama = 300`.  Since the absolute
series is the fractional one scaled by the positive `populacao`, it is
likewise non-increasing. -/
theorem c9_S_nonincreasing (populacao beta gama tDeath infectado curado mortos simulationTime leitos : ℚ)
    (hv : ValidParams populacao beta gama tDeath infectado curado mortos simulationTime leitos)
    (hb1 : beta * dt ≤ 1) (hg1 : gama * dt ≤ 1)
    (d : Doenca)
    (h : Doenca.init populacao beta gama tDeath infectado curado mortos simulationTime leitos = some d)
    (k : ℕ) :
    (d.traj (k+1)).S ≤ (d.traj k).S ∧
      (d.traj (k+1)).S * populacao ≤ (d.traj k).S * populacao := by
  unfold ValidParams at hv
  obtain ⟨hpop, hb0, hg0, -, -, hi0, hip, -, -, -, -⟩ := hv
  obtain ⟨-, hb, hg, -, -, -, hs0⟩ :=
    Doenca.init_fields populacao beta gama tDeath infectado curado mortos simulationTime leitos d h
  have hI0 : 0 ≤ (d.traj 0).I := by
    rw [Doenca.traj_zero, hs0]
    exact div_nonneg hi0 hpop.le
  have hS0 : 0 ≤ (d.traj 0).S := by
    rw [Doenca.traj_zero, hs0]
    exact div_nonneg (by linarith) hpop.le
  have hSI0 : (d.traj 0).S + (d.traj 0).I ≤ 1 := by
    rw [Doenca.traj_zero, hs0]
    show (populacao - infectado) / populacao + infectado / populacao ≤ 1
    have heq : (populacao - infectado) / populacao + infectado / populacao = 1 := by
      field_simp
    linarith
  have hmono : (d.traj (k+1)).S ≤ (d.traj k).S := by
    refine Doenca.traj_S_mono d ?_ ?_ ?_ ?_ hI0 hS0 hSI0 k
    · rw [hb]; exact hb0
    · rw [hb]; exact hb1
    · rw [hg]; exact hg0
    · rw [hg]; exact hg1
  exact ⟨hmono, mul_le_mul_of_nonneg_right hmono hpop.le⟩

/-- Witness for C9 at the driver's scenario (`beta = 3/10`, `gama = 1/4`),
step `k = 0`. -/
theorem c9_S_nonincreasing_witness :
    ∃ d, Doenca.init 900000 (3/10) (1/4) (1/25) 5100 0 0 360 5623 = some d ∧
      (d.traj 1).S ≤ (d.traj 0).S :=
  ⟨_, Doenca.init_eq 900000 (3/10) (1/4) (1/25) 5100 0 0 360 5623 (by norm_num),
    (c9_S_nonincreasing 900000 (3/10) (1/4) (1/25) 5100 0 0 360 5623
      (by norm_num [ValidParams]) (by norm_num [dt]) (by norm_num [dt]) _
      (Doenca.init_eq 900000 (3/10) (1/4) (1/25) 5100 0 0 360 5623 (by norm_num)) 0).1⟩

/-- Indexing a mapped range list inside its bounds. -/
theorem map_range_getElem (f : ℕ → ℚ) (n k : ℕ) (hk : k < n) :
    ((List.range n).map f)[k]? = some (f k) := by
  simp [List.getElem?_map, List.getElem?_range, hk]

/-- Inversion of indexing a mapped range list. -/
theorem map_range_getElem_inv (f : ℕ → ℚ) (n k : ℕ) (a : ℚ)
    (h : ((List.range n).map f)[k]? = some a) : a = f k ∧ k < n := by
  rw [List.getElem?_map] at h
  rcases Nat.lt_or_ge k n with hk | hk
  · rw [List.getElem?_range hk] at h
    exact ⟨(Option.some.inj h).symm, hk⟩
  · rw [List.getElem?_eq_none (by simpa using hk)] at h
    simp at h

/-- The recorded time after `k` steps is `k * dt`, for a model whose initial
time entry is `0`. -/
theorem Doenca.traj_time (d : Doenca) (h0 : (d.traj 0).time = 0) (k : ℕ) :
    (d.traj k).time = (k : ℚ) * dt := by
  induction k with
  | zero => rw [h0]; norm_num
  | succ k ih =>
    rw [Doenca.traj_succ_time, ih]
    push_cast
    ring

/-- Claim C4: after `run`, the five sequences `time`, `S`, `I`, `C`, `D` all
have length `floor(simulationTime / dt) + 1`, `time[0] = 0`, and consecutive
time entries increase by exactly `dt`, so `time` is strictly increasing with
constant spacing. -/
theorem c4_lengths_time_axis (populacao beta gama tDeath infectado curado mortos simulationTime leitos : ℚ)
    (hv : ValidParams populacao beta gama tDeath infectado curado mortos simulationTime leitos)
    (d : Doenca)
    (h : Doenca.init populacao beta gama tDeath infectado curado mortos simulationTime leitos = some d) :
    ((d.run.time.length : ℤ) = ⌊simulationTime / dt⌋ + 1) ∧
      d.run.S.length = d.run.time.length ∧
      d.run.I.length = d.run.time.length ∧
      d.run.C.length = d.run.time.length ∧
      d.run.D.length = d.run.time.length ∧
      d.run.time[0]? = some 0 ∧
      (∀ k a b, d.run.time[k]? = some a → d.run.time[k+1]? = some b →
        a < b ∧ b = a + dt) := by
  obtain ⟨-, -, -, -, -, hT, hs0⟩ :=
    Doenca.init_fields populacao beta gama tDeath infectado curado mortos simulationTime leitos d h
  have hrt : d.run.time = (List.range (d.N + 1)).map (fun k => (d.traj k).time) := rfl
  have h0 : (d.traj 0).time = 0 := by rw [Doenca.traj_zero, hs0]
  have hlen : d.run.time.length = d.N + 1 := by rw [hrt]; simp
  have hTpos : 0 < simulationTime := hv.2.2.2.2.2.2.2.2.2.1
  refine ⟨?_, ?_, ?_, ?_, ?_, ?_, ?_⟩
  · rw [hlen]
    simp only [Doenca.N, hT]
    push_cast
    rw [Int.toNat_of_nonneg (Int.floor_nonneg.mpr (div_nonneg hTpos.le dt_nonneg))]
  · show ((List.range (d.N + 1)).map fun k => (d.traj k).S * d.populacao).length
      = d.run.time.length
    rw [hlen]; simp
  · show ((List.range (d.N + 1)).map fun k => (d.traj k).I * d.populacao).length
      = d.run.time.length
    rw [hlen]; simp
  · show ((List.range (d.N + 1)).map fun k => (d.traj k).C * d.populacao).length
      = d.run.time.length
    rw [hlen]; simp
  · show ((List.range (d.N + 1)).map fun k => (d.traj k).D * d.populacao).length
      = d.run.time.length
    rw [hlen]; simp
  · rw [hrt, map_range_getElem _ _ 0 (Nat.succ_pos d.N), h0]
  · intro k a b ha hb
    rw [hrt] at ha hb
    obtain ⟨haeq, -⟩ := map_range_getElem_inv _ _ _ _ ha
    obtain ⟨hbeq, -⟩ := map_range_getElem_inv _ _ _ _ hb
    have hstep : b = a + dt := by
      rw [haeq, hbeq, Doenca.traj_succ_time]
    exact ⟨by rw [hstep]; linarith [dt_pos], hstep⟩

/-- Witness for C4 at a concrete valid construction
(`simulationTime = 2/100`, so three recorded steps). -/
theorem c4_lengths_time_axis_witness :
    ∃ d, Doenca.init 10 (1/2) (1/4) (1/25) 1 0 0 (2/100) 0 = some d ∧
      ((d.run.time.length : ℤ) = ⌊(2/100 : ℚ) / dt⌋ + 1) ∧
      d.run.time[0]? = some 0 :=
  ⟨_, Doenca.init_eq 10 (1/2) (1/4) (1/25) 1 0 0 (2/100) 0 (by norm_num),
    (c4_lengths_time_axis 10 (1/2) (1/4) (1/25) 1 0 0 (2/100) 0 (by norm_num [ValidParams]) _
      (Doenca.init_eq 10 (1/2) (1/4) (1/25) 1 0 0 (2/100) 0 (by norm_num))).1,
    (c4_lengths_time_axis 10 (1/2) (1/4) (1/25) 1 0 0 (2/100) 0 (by norm_num [ValidParams]) _
      (Doenca.init_eq 10 (1/2) (1/4) (1/25) 1 0 0 (2/100) 0 (by norm_num))).2.2.2.2.2.1⟩

/-- The bed list a successful construction starts with. -/
theorem Doenca.init_leitos (populacao beta gama tDeath infectado curado mortos simulationTime leitos : ℚ)
    (d : Doenca)
    (h : Doenca.init populacao beta gama tDeath infectado curado mortos simulationTime leitos = some d) :
    d.leitos = [leitos] := by
  have hp := Doenca.init_ne_zero populacao beta gama tDeath infectado curado mortos simulationTime leitos d h
  rw [Doenca.init_eq populacao beta gama tDeath infectado curado mortos simulationTime leitos hp] at h
  obtain rfl := (Option.some.inj h).symm
  rfl

/-- Claim C5 is violated by the code: at the driver's own bed capacity
`leitos = 5623` (one integration step, `simulationTime = 1/100`), the
bed series after `run` is `[5623, 744]` — the loop appends the hard-coded
literal `744`, not the constructed bed capacity, so entries past index 0
do not equal the supplied value. -/
theorem c5_beds_744 :
    ∃ d, Doenca.init 900000 (3/10) (1/4) (1/25) 5100 0 0 (1/100) 5623 = some d ∧
      d.run.leitos = [5623, 744] ∧ (5623 : ℚ) ≠ 744 := by
  obtain ⟨d, hd⟩ : ∃ d, Doenca.init 900000 (3/10) (1/4) (1/25) 5100 0 0 (1/100) 5623 = some d :=
    ⟨_, Doenca.init_eq 900000 (3/10) (1/4) (1/25) 5100 0 0 (1/100) 5623 (by norm_num)⟩
  obtain ⟨-, -, -, -, -, hT, -⟩ :=
    Doenca.init_fields 900000 (3/10) (1/4) (1/25) 5100 0 0 (1/100) 5623 d hd
  have hl := Doenca.init_leitos 900000 (3/10) (1/4) (1/25) 5100 0 0 (1/100) 5623 d hd
  have hN : d.N = 1 := by
    simp only [Doenca.N, hT, dt]
    norm_num
  have hrl : d.run.leitos = d.leitos ++ List.replicate d.N 744 := rfl
  refine ⟨d, hd, ?_, by norm_num⟩
  rw [hrl, hl, hN]
  rfl
